import Mathlib

/-!
# Verification of the smart configuration merger and upgrade orchestrator

Shallow embedding of the configuration-reconciliation engine of the
`toolsupgrade` repository (`src/configMerger.mjs`, `src/server.mjs`).
JavaScript string/array operations are rendered over Lean `String` and
`List`; the in-place object mutation used by the Tomcat XML merge is
rendered as explicit heap (store) passing where object identity matters.
-/

set_option maxRecDepth 10000

namespace ToolsUpgrade

/-! ## JS primitives

Small helpers mirroring the JavaScript string operations used by the
merger.  `jsSplitWs` models `String.prototype.split(/\s+/)` applied to an
already-trimmed string (runs of whitespace collapse, no empty tokens);
`jsIncludes` models `String.prototype.includes`; `jsEndsWith` models
`String.prototype.endsWith`. -/

/-- `String.prototype.trim`: drop leading and trailing whitespace. -/
def jsTrim (s : String) : String :=
  String.mk (((s.toList.dropWhile Char.isWhitespace).reverse.dropWhile Char.isWhitespace).reverse)

/-- `String.prototype.startsWith`. -/
def jsStartsWith (s pattern : String) : Bool :=
  pattern.toList.isPrefixOf s.toList

/-- Split a character list at every character satisfying `p` (the pieces
between separator characters, possibly empty). -/
def splitCharsOn (p : Char → Bool) : List Char → List (List Char)
  | [] => [[]]
  | c :: cs =>
    match splitCharsOn p cs with
    | [] => [[]]
    | g :: gs => if p c then [] :: g :: gs else (c :: g) :: gs

/-- `String.prototype.split('\n')`. -/
def jsSplitNl (s : String) : List String :=
  (splitCharsOn (fun c => c = '\n') s.toList).map String.mk

/-- `String.prototype.split(/\s+/)` on an already-trimmed string: runs of
whitespace collapse and produce no empty tokens. -/
def jsSplitWs (s : String) : List String :=
  ((splitCharsOn Char.isWhitespace s.toList).map String.mk).filter (fun piece => piece ≠ "")

/-- `needle.isPrefixOf` of some suffix of `hay`. -/
def charsInfixOf (needle : List Char) : List Char → Bool
  | [] => needle.isEmpty
  | c :: cs => needle.isPrefixOf (c :: cs) || charsInfixOf needle cs

/-- `String.prototype.includes`. -/
def jsIncludes (s pattern : String) : Bool :=
  charsInfixOf pattern.toList s.toList

/-- `String.prototype.endsWith`. -/
def jsEndsWith (s suffix : String) : Bool :=
  suffix.toList.reverse.isPrefixOf s.toList.reverse

/-! ## Apache HTTPD model (`src/configMerger.mjs`)

Data model of `parseApacheConfig`'s result: lists of directives, module
lines and opaque blocks.  The source records per-element `lineNum`
bookkeeping, carried here verbatim; blocks also record `startIndex` /
`endIndex` in the source, which serve only to resume the parse loop after
the block and are represented by the recursion structure instead. -/

/-- `APACHE_USER_DIRECTIVES` (configMerger.mjs:15-22): the user allow-list. -/
def APACHE_USER_DIRECTIVES : List String :=
  ["ServerName", "ServerAdmin", "ServerRoot", "DocumentRoot", "Listen",
   "ErrorLog", "CustomLog", "LogLevel", "LogFormat",
   "SSLCertificateFile", "SSLCertificateKeyFile", "SSLCertificateChainFile",
   "SSLCACertificateFile", "ProxyPass", "ProxyPassReverse",
   "Redirect", "RedirectMatch", "Alias", "ScriptAlias",
   "Directory", "VirtualHost", "IfModule", "LoadModule"]

/-- `APACHE_SECURITY_DIRECTIVES` (configMerger.mjs:24-28): the security deny-list. -/
def APACHE_SECURITY_DIRECTIVES : List String :=
  ["SSLProtocol", "SSLCipherSuite", "SSLHonorCipherOrder",
   "Header", "ServerTokens", "ServerSignature", "TraceEnable",
   "FileETag", "Timeout", "LimitRequestBody", "KeepAlive"]

/-- A parsed directive: `{ name, value, fullLine }` from `parseApacheDirective`
plus the `lineNum` added at the push site in `parseApacheConfig`. -/
structure ApacheDirective where
  name : String
  value : String
  fullLine : String
  lineNum : Nat
deriving Repr, DecidableEq

/-- A `LoadModule` entry: `{ line, lineNum }` (configMerger.mjs:193). -/
structure ApacheModuleLine where
  line : String
  lineNum : Nat
deriving Repr, DecidableEq

/-- An opaque block from `extractApacheBlock`: the verbatim lines and their
join (`content`).  The source's `startIndex`/`endIndex` fields are loop
bookkeeping (the resume position), captured by the recursion in
`parseApacheLines`. -/
structure ApacheBlock where
  content : String
  lines : List String
deriving Repr, DecidableEq

/-- The parse result `config` object of `parseApacheConfig` (configMerger.mjs:174-180). -/
structure ApacheConfig where
  directives : List ApacheDirective
  modules : List ApacheModuleLine
  virtualHosts : List ApacheBlock
  directories : List ApacheBlock
  ifModules : List ApacheBlock
deriving Repr, DecidableEq

def emptyApacheConfig : ApacheConfig :=
  { directives := [], modules := [], virtualHosts := [], directories := [], ifModules := [] }

/-- `parseApacheDirective` (configMerger.mjs:227-239).  `lineNum` is 0 here and
overwritten at the push site, mirroring `{ ...directive, lineNum: i + 1 }`. -/
def parseApacheDirective (line : String) : Option ApacheDirective :=
  let trimmed := jsTrim line
  if trimmed = "" || jsStartsWith trimmed "#" then none
  else
    match jsSplitWs trimmed with
    | [] => none
    | p :: rest => some ⟨p, String.intercalate " " rest, line, 0⟩

/-- Depth update of one `extractApacheBlock` loop iteration
(configMerger.mjs:250-251): a line starting with the opening tag increments the
depth, one starting with the closing tag decrements it. -/
def blockDepthStep (startTag endTag : String) (depth : Nat) (l : String) : Nat :=
  let trimmed := jsTrim l
  let d1 := if jsStartsWith trimmed startTag then depth + 1 else depth
  if jsStartsWith trimmed endTag then d1 - 1 else d1

/-- Body of the `while` loop of `extractApacheBlock` (configMerger.mjs:241-263):
consumes lines while the depth count is positive; returns the consumed block
lines (closing tag included when present) and the remaining lines after the
block. -/
def extractApacheBlockAux (startTag endTag : String) : Nat → List String → List String × List String
  | _, [] => ([], [])
  | depth, l :: ls =>
    let d2 := blockDepthStep startTag endTag depth l
    if d2 = 0 then ([l], ls)
    else
      let r := extractApacheBlockAux startTag endTag d2 ls
      (l :: r.1, r.2)

theorem extractApacheBlockAux_rem_length (startTag endTag : String) :
    ∀ (depth : Nat) (ls : List String),
      (extractApacheBlockAux startTag endTag depth ls).2.length ≤ ls.length := by
  intro depth ls
  induction ls generalizing depth with
  | nil => simp [extractApacheBlockAux]
  | cons l ls ih =>
    rw [extractApacheBlockAux]
    dsimp only
    split
    · simp
    · exact Nat.le_succ_of_le (ih _)

/-- The main loop of `parseApacheConfig` (configMerger.mjs:182-222).  The first
argument is structural fuel (each iteration consumes at least one line, so the
total number of lines suffices; see `parseApacheConfig`); the second is the
0-based index `i` of the head line (used only for the `lineNum: i + 1`
bookkeeping).  After a block the parse resumes right after the block's last
consumed line, mirroring `i = block.endIndex; i++`. -/
def parseApacheLines : Nat → Nat → List String → ApacheConfig
  | 0, _, _ => emptyApacheConfig
  | _ + 1, _, [] => emptyApacheConfig
  | fuel + 1, i, l :: ls =>
    let line := jsTrim l
    if line = "" || jsStartsWith line "#" then
      parseApacheLines fuel (i + 1) ls
    else if jsStartsWith line "LoadModule" then
      let c := parseApacheLines fuel (i + 1) ls
      { c with modules := ⟨l, i + 1⟩ :: c.modules }
    else if jsStartsWith line "<VirtualHost" then
      let r := extractApacheBlockAux "<VirtualHost" "</VirtualHost>" 1 ls
      let c := parseApacheLines fuel (i + 1 + (ls.length - r.2.length) + 1) r.2
      { c with virtualHosts :=
          ⟨String.intercalate "\n" (l :: r.1), l :: r.1⟩ :: c.virtualHosts }
    else if jsStartsWith line "<Directory" then
      let r := extractApacheBlockAux "<Directory" "</Directory>" 1 ls
      let c := parseApacheLines fuel (i + 1 + (ls.length - r.2.length) + 1) r.2
      { c with directories :=
          ⟨String.intercalate "\n" (l :: r.1), l :: r.1⟩ :: c.directories }
    else if jsStartsWith line "<IfModule" then
      let r := extractApacheBlockAux "<IfModule" "</IfModule>" 1 ls
      let c := parseApacheLines fuel (i + 1 + (ls.length - r.2.length) + 1) r.2
      { c with ifModules :=
          ⟨String.intercalate "\n" (l :: r.1), l :: r.1⟩ :: c.ifModules }
    else
      match parseApacheDirective l with
      | some d =>
        let c := parseApacheLines fuel (i + 1) ls
        { c with directives := { d with lineNum := i + 1 } :: c.directives }
      | none => parseApacheLines fuel (i + 1) ls

/-- `parseApacheConfig` (configMerger.mjs:172-225): split on newlines and run
the line loop.  The fuel `lines.length` is adequate: every iteration consumes
at least one line (`extractApacheBlockAux_rem_length`). -/
def parseApacheConfig (content : String) : ApacheConfig :=
  let lines := jsSplitNl content
  parseApacheLines lines.length 0 lines

/-- The `customizations` object of `extractApacheUserSettings`
(configMerger.mjs:265-302). -/
structure ApacheCustomizations where
  directives : List ApacheDirective
  virtualHosts : List ApacheBlock
  directories : List ApacheBlock
  modules : List ApacheModuleLine
deriving Repr, DecidableEq

/-- `hasUserContent` (configMerger.mjs:304-307). -/
def hasUserContent (content : String) : Bool :=
  ["ProxyPass", "Redirect", "Alias", "SSLCertificate", "Allow", "Deny"].any
    (fun kw => jsIncludes content kw)

/-- `isDefaultModule` (configMerger.mjs:309-318). -/
def isDefaultModule (line : String) : Bool :=
  ["mod_access_compat", "mod_actions", "mod_alias", "mod_allowmethods",
   "mod_auth_basic", "mod_authn_core", "mod_authn_file", "mod_authz_core",
   "mod_authz_groupfile", "mod_authz_host", "mod_authz_user", "mod_autoindex",
   "mod_dir", "mod_env", "mod_headers", "mod_include", "mod_log_config",
   "mod_mime", "mod_negotiation", "mod_setenvif"].any
    (fun m => jsIncludes line m)

/-- `extractApacheUserSettings` (configMerger.mjs:265-302): keep the directives
whose name is on the user allow-list, all VirtualHost blocks, the Directory
blocks with user content, and the non-default modules, in original order. -/
def extractApacheUserSettings (config : ApacheConfig) : ApacheCustomizations :=
  { directives := config.directives.filter (fun d => d.name ∈ APACHE_USER_DIRECTIVES),
    virtualHosts := config.virtualHosts,
    directories := config.directories.filter (fun b => hasUserContent b.content),
    modules := config.modules.filter (fun m => !isDefaultModule m.line) }

/-- One step of the user-directive merge loop (configMerger.mjs:330-337):
`findIndex` on the name, replace the first match in place, else push at the
end — rendered as a first-match replace-or-append recursion. -/
def upsertDirective (acc : List ApacheDirective) (userDir : ApacheDirective) : List ApacheDirective :=
  match acc with
  | [] => [userDir]
  | d :: ds => if d.name = userDir.name then userDir :: ds else d :: upsertDirective ds userDir

/-- The directive part of `mergeApacheSettings` (configMerger.mjs:324-338):
each user directive is skipped when its name is on the security deny-list,
otherwise replaces the first same-named directive of the evolving base or is
appended. -/
def mergeApacheDirectives (base : List ApacheDirective) (userDirs : List ApacheDirective) :
    List ApacheDirective :=
  userDirs.foldl
    (fun acc userDir =>
      if userDir.name ∈ APACHE_SECURITY_DIRECTIVES then acc
      else upsertDirective acc userDir)
    base

/-- `mergeApacheSettings` (configMerger.mjs:320-350).  The source starts from a
deep clone (`JSON.parse(JSON.stringify(newConfig))`) of the new config, so the
inputs are untouched; user VirtualHosts, directories and modules are appended,
`ifModules` come from the new config alone. -/
def mergeApacheSettings (newConfig : ApacheConfig) (userCustomizations : ApacheCustomizations) :
    ApacheConfig :=
  { directives := mergeApacheDirectives newConfig.directives userCustomizations.directives,
    modules := newConfig.modules ++ userCustomizations.modules,
    virtualHosts := newConfig.virtualHosts ++ userCustomizations.virtualHosts,
    directories := newConfig.directories ++ userCustomizations.directories,
    ifModules := newConfig.ifModules }

/-- The `'# ==...=='` banner line used by `buildApacheConfig` (76 equals signs). -/
def apacheBanner : String :=
  "# " ++ String.mk (List.replicate 76 '=')

/-- The `lines` array built by `buildApacheConfig` (configMerger.mjs:352-397)
before the final `join('\n')`.  The `Generated:` timestamp
(`new Date().toISOString()`) is an external input `ts`. -/
def buildApacheConfigLines (ts : String) (config : ApacheConfig) : List String :=
  [apacheBanner,
   "# Apache HTTP Server Configuration - Merged by Upgrade Tool",
   "# Generated: " ++ ts,
   apacheBanner,
   ""]
  ++ (if config.modules.length > 0 then
        ["# Load Modules"] ++ config.modules.map (fun m => m.line) ++ [""]
      else [])
  ++ (if config.directives.length > 0 then
        ["# Server Configuration"] ++ config.directives.map (fun d => d.fullLine) ++ [""]
      else [])
  ++ (if config.ifModules.length > 0 then
        ["# Conditional Configuration"] ++ config.ifModules.map (fun b => b.content) ++ [""]
      else [])
  ++ (if config.directories.length > 0 then
        ["# Directory Configuration"] ++ config.directories.map (fun b => b.content) ++ [""]
      else [])
  ++ (if config.virtualHosts.length > 0 then
        ["# Virtual Hosts"] ++ config.virtualHosts.map (fun b => b.content) ++ [""]
      else [])

/-- `buildApacheConfig` (configMerger.mjs:352-397): the section lines joined
with newlines. -/
def buildApacheConfig (ts : String) (config : ApacheConfig) : String :=
  String.intercalate "\n" (buildApacheConfigLines ts config)

/-- The `Include` line appended by `mergeApacheConfig` (configMerger.mjs:153). -/
def vaptIncludeLine : String :=
  "Include conf/extra/httpd-security-vapt.conf"

/-- The Apache hardening injection of `mergeApacheConfig` (configMerger.mjs:146-153):
the VAPT config is written to a side file and the `Include` block is appended
unconditionally to the merged content. -/
def injectApacheHardening (mergedContent : String) : String :=
  mergedContent ++ "\n\n# Include VAPT Security Hardening\nInclude conf/extra/httpd-security-vapt.conf\n"

/-- Line-level form of `injectApacheHardening`: appending
`"\n\n# Include VAPT Security Hardening\nInclude ...\n"` to a text appends
exactly these four lines to its newline-split line list. -/
def injectApacheHardeningLines (lines : List String) : List String :=
  lines ++ ["", "# Include VAPT Security Hardening", vaptIncludeLine, ""]

/-- The merged-then-hardened content produced by `mergeApacheConfig`
(configMerger.mjs:125-170) for old/new config texts, with the build timestamp
as input `ts`. -/
def mergeApacheConfigContent (ts oldContent newContent : String) : String :=
  injectApacheHardening (buildApacheConfig ts
    (mergeApacheSettings (parseApacheConfig newContent)
      (extractApacheUserSettings (parseApacheConfig oldContent))))

/-- `APACHE_VAPT_CONFIG` (configMerger.mjs:31-123) as its list of lines (the
source is a template literal beginning and ending with a newline; apostrophes
are written with the `\x27` escape). -/
def APACHE_VAPT_LINES : List String :=
  ["",
   apacheBanner,
   "# APACHE HTTPD - VAPT SECURITY HARDENING",
   "# Auto-generated during upgrade - DO NOT MODIFY MANUALLY",
   apacheBanner,
   "",
   "# 1. Hide Apache Version and OS Information",
   "ServerTokens Prod",
   "ServerSignature Off",
   "",
   "# 2. Disable HTTP TRACE Method (Prevents XST attacks)",
   "TraceEnable Off",
   "",
   "# 3. Clickjacking Protection",
   "Header always append X-Frame-Options SAMEORIGIN",
   "",
   "# 4. XSS Protection",
   "Header set X-XSS-Protection \"1; mode=block\"",
   "",
   "# 5. MIME Type Sniffing Protection",
   "Header set X-Content-Type-Options \"nosniff\"",
   "",
   "# 6. Referrer Policy",
   "Header set Referrer-Policy \"strict-origin-when-cross-origin\"",
   "",
   "# 7. Content Security Policy (CSP)",
   "Header set Content-Security-Policy \"default-src \x27self\x27; script-src \x27self\x27 \x27unsafe-inline\x27; style-src \x27self\x27 \x27unsafe-inline\x27\"",
   "",
   "# 8. HTTP Strict Transport Security (HSTS) - Enable if using HTTPS",
   "# Header always set Strict-Transport-Security \"max-age=31536000; includeSubDomains; preload\"",
   "",
   "# 9. Remove ETag (Information Disclosure)",
   "FileETag None",
   "",
   "# 10. Limit Request Size (DoS Protection)",
   "LimitRequestBody 10485760",
   "",
   "# 11. Timeout Configuration (DoS Protection)",
   "Timeout 60",
   "KeepAlive On",
   "MaxKeepAliveRequests 100",
   "KeepAliveTimeout 5",
   "",
   "# 12. Disable Directory Listing",
   "<Directory />",
   "    Options -Indexes",
   "    AllowOverride None",
   "    Require all denied",
   "</Directory>",
   "",
   "# 13. SSL/TLS Security (If SSL is enabled)",
   "<IfModule ssl_module>",
   "    # Use only TLS 1.2 and 1.3",
   "    SSLProtocol -all +TLSv1.2 +TLSv1.3",
   "",
   "    # Strong Cipher Suite",
   "    SSLCipherSuite ECDHE-ECDSA-AES128-GCM-SHA256:ECDHE-RSA-AES128-GCM-SHA256:ECDHE-ECDSA-AES256-GCM-SHA384:ECDHE-RSA-AES256-GCM-SHA384:ECDHE-ECDSA-CHACHA20-POLY1305:ECDHE-RSA-CHACHA20-POLY1305:DHE-RSA-AES128-GCM-SHA256:DHE-RSA-AES256-GCM-SHA384",
   "",
   "    # Prefer Server Ciphers",
   "    SSLHonorCipherOrder On",
   "",
   "    # Disable SSL Compression (CRIME attack)",
   "    SSLCompression Off",
   "",
   "    # OCSP Stapling",
   "    SSLUseStapling On",
   "    SSLStaplingCache \"shmcb:logs/ssl_stapling(32768)\"",
   "</IfModule>",
   "",
   "# 14. Disable Unnecessary Modules (Uncomment to disable)",
   "# LoadModule autoindex_module modules/mod_autoindex.so",
   "# LoadModule status_module modules/mod_status.so",
   "# LoadModule info_module modules/mod_info.so",
   "",
   "# 15. Log Security Events",
   "LogLevel warn ssl:warn",
   "",
   "// ADD these missing items to APACHE_VAPT_CONFIG in configMerger.mjs (around line 35)",
   "",
   "# 16. Secure Cookie Configuration (MISSING - Critical from PDF)",
   "Header edit Set-Cookie ^(.*)$ $1;HttpOnly;Secure",
   "Header always edit Set-Cookie (.*) \"$1; SameSite=Strict\"",
   "",
   "# 17. Disable HTTP/1.0 Protocol (MISSING)",
   "Protocols h2 http/1.1",
   "",
   "# 18. Request Timeout (adjust from current generic Timeout)",
   "RequestReadTimeout header=20-40,MinRate=500 body=20,MinRate=500",
   "",
   apacheBanner,
   "# END OF VAPT SECURITY HARDENING",
   apacheBanner,
   ""]

/-- `APACHE_VAPT_CONFIG` (configMerger.mjs:31-123), the file content written to
`conf/extra/httpd-security-vapt.conf`. -/
def APACHE_VAPT_CONFIG : String :=
  String.intercalate "\n" APACHE_VAPT_LINES

/-- Modelled from the spec: Apache's `Include` directive splices the included
file's lines in place of the `Include` line; here only the one include the
tool emits (`conf/extra/httpd-security-vapt.conf`, whose content the tool
writes as `APACHE_VAPT_CONFIG`) is resolved. -/
def resolveVaptInclude (lines : List String) : List String :=
  lines.flatMap (fun l => if l = vaptIncludeLine then APACHE_VAPT_LINES else [l])

/-- Modelled from the spec: the *effective* value of an httpd directive in a
configuration text is the value of its last occurrence (later directives win),
scanned with the tool's own `parseApacheDirective` line reader. -/
def effectiveDirectiveValue (lines : List String) (name : String) : Option String :=
  lines.foldl
    (fun acc l =>
      match parseApacheDirective l with
      | some d => if d.name = name then some d.value else acc
      | none => acc)
    none

/-! ## Tomcat/TomEE XML model (`src/configMerger.mjs`)

The `fast-xml-parser` representation is a tree of JS objects whose `@_`-prefixed
keys are attributes.  Attribute sets are modelled as ordered association lists
(`AttrMap`) with JS `Object.assign` semantics (`objAssign`): existing keys are
updated in place, new keys appended.  A child element that may be absent, a
single object, or an array is modelled by `JsArr`. -/

/-- Ordered string-keyed attribute map of one XML element. -/
abbrev AttrMap := List (String × String)

/-- JS property read `obj[k]` (first occurrence; `none` = `undefined`). -/
def attrLookup (m : AttrMap) (k : String) : Option String :=
  match m with
  | [] => none
  | (k', v) :: rest => if k' = k then some v else attrLookup rest k

/-- JS property write `obj[k] = v`: update the existing key in place, else
append. -/
def setKey (m : AttrMap) (k v : String) : AttrMap :=
  match m with
  | [] => [(k, v)]
  | (k', v') :: rest => if k' = k then (k, v) :: rest else (k', v') :: setKey rest k v

/-- `Object.assign(target, src)`. -/
def objAssign (target src : AttrMap) : AttrMap :=
  src.foldl (fun m kv => setKey m kv.1 kv.2) target

/-- A child-element slot that is `undefined`, a single object, or an array
(the three shapes `fast-xml-parser` produces and the source branches on with
`Array.isArray`). -/
inductive JsArr (α : Type) : Type
  | absent : JsArr α
  | one : α → JsArr α
  | arr : List α → JsArr α
deriving Repr, DecidableEq

/-- Map a function over the first element when one exists, mirroring
`const x = Array.isArray(f) ? f[0] : f; if (!x) return;` followed by in-place
mutation of `x`. -/
def JsArr.mapFirst (f : α → α) : JsArr α → JsArr α
  | .absent => .absent
  | .one a => .one (f a)
  | .arr [] => .arr []
  | .arr (a :: as) => .arr (f a :: as)

/-- Map a function over every element, mirroring
`const xs = Array.isArray(f) ? f : [f]; xs.forEach(mutate)` (the container
shape is not written back, so a single object stays single). -/
def JsArr.mapAll (f : α → α) : JsArr α → JsArr α
  | .absent => .absent
  | .one a => .one (f a)
  | .arr as => .arr (as.map f)

/-- A `<Host>` element: its attributes and its `Valve` children (attribute
maps).  Other children (`Context`, ...) are untouched by `applyTomcatVAPT` and
not modelled. -/
structure TomcatHost where
  attrs : AttrMap
  valve : JsArr AttrMap
deriving Repr, DecidableEq

/-- An `<Engine>` element: attributes and `Host` children. -/
structure TomcatEngine where
  attrs : AttrMap
  host : JsArr TomcatHost
deriving Repr, DecidableEq

/-- A `<Service>` element: attributes, `Connector` children (attribute maps)
and the optional `Engine`. -/
structure TomcatService where
  attrs : AttrMap
  connector : JsArr AttrMap
  engine : Option TomcatEngine
deriving Repr, DecidableEq

/-- The `<Server>` element: attributes and `Service` children. -/
structure TomcatServer where
  attrs : AttrMap
  service : JsArr TomcatService
deriving Repr, DecidableEq

/-- A parsed `server.xml` document (`config.Server` may be missing). -/
structure TomcatConfig where
  server : Option TomcatServer
deriving Repr, DecidableEq

/-- `TOMCAT_VAPT_SETTINGS.server` (configMerger.mjs:404-408).  The object
literal lists `'@_port'` twice (`'8005'` then `'-1'`), so the resulting JS
object maps `@_port` to `'-1'`; `'@_shutdown'` is `'SHUTDOWN_' +
Math.random()...`, an external input `shutdownCmd` here. -/
def tomcatVaptServer (shutdownCmd : String) : AttrMap :=
  [("@_port", "-1"), ("@_shutdown", shutdownCmd)]

/-- `TOMCAT_VAPT_SETTINGS.connector` (configMerger.mjs:409-432). -/
def tomcatVaptConnector : AttrMap :=
  [("@_maxThreads", "150"),
   ("@_minSpareThreads", "25"),
   ("@_connectionTimeout", "20000"),
   ("@_maxHttpHeaderSize", "8192"),
   ("@_maxParameterCount", "1000"),
   ("@_compression", "on"),
   ("@_compressionMinSize", "2048"),
   ("@_server", "Apache"),
   ("@_xpoweredBy", "false"),
   ("@_SSLEnabled", "true"),
   ("@_sslProtocol", "TLS"),
   ("@_sslEnabledProtocols", "TLSv1.2,TLSv1.3"),
   ("@_ciphers", "TLS_ECDHE_RSA_WITH_AES_128_GCM_SHA256,TLS_ECDHE_RSA_WITH_AES_256_GCM_SHA384"),
   ("@_SSLHonorCipherOrder", "true"),
   ("@_URIEncoding", "UTF-8"),
   ("@_useBodyEncodingForURI", "true"),
   ("@_allowTrace", "false"),
   ("@_maxPostSize", "2097152"),
   ("@_maxSavePostSize", "4096"),
   ("@_secure", "true"),
   ("@_scheme", "https")]

/-- `TOMCAT_VAPT_SETTINGS.valve` (configMerger.mjs:433-437), the
`ErrorReportValve` added per host. -/
def tomcatVaptValve : AttrMap :=
  [("@_className", "org.apache.catalina.valves.ErrorReportValve"),
   ("@_showReport", "false"),
   ("@_showServerInfo", "false")]

/-- `TOMCAT_VAPT_SETTINGS.accessLogValve` (configMerger.mjs:439-445); declared
in the rule table but not referenced by `applyTomcatVAPT`. -/
def tomcatVaptAccessLogValve : AttrMap :=
  [("@_className", "org.apache.catalina.valves.AccessLogValve"),
   ("@_directory", "logs"),
   ("@_prefix", "localhost_access_log"),
   ("@_suffix", ".txt"),
   ("@_pattern", "%h %l %u %t \"%r\" %s %b")]

/-- Normalisation of `host.Valve` to an array (configMerger.mjs:657-661). -/
def valveList : JsArr AttrMap → List AttrMap
  | .absent => []
  | .one v => [v]
  | .arr vs => vs

/-- The `hasErrorValve` check (configMerger.mjs:663-665):
`v['@_className']?.includes('ErrorReportValve')`. -/
def isErrorReportValve (v : AttrMap) : Bool :=
  match attrLookup v "@_className" with
  | some s => jsIncludes s "ErrorReportValve"
  | none => false

/-- The per-host part of `applyTomcatVAPT` (configMerger.mjs:654-671): the
`Valve` slot is normalised to an array and the `ErrorReportValve` is pushed
only when no valve's `@_className` already includes `'ErrorReportValve'`. -/
def hardenTomcatHost (host : TomcatHost) : TomcatHost :=
  let valves := valveList host.valve
  let newValves := if valves.any isErrorReportValve then valves else valves ++ [tomcatVaptValve]
  { host with valve := JsArr.arr newValves }

/-- The per-connector part of `applyTomcatVAPT` (configMerger.mjs:644-651):
`Object.assign` of the connector hardening attributes onto every connector
(the array-or-single shape is not changed). -/
def hardenTomcatConnectors (c : JsArr AttrMap) : JsArr AttrMap :=
  c.mapAll (fun conn => objAssign conn tomcatVaptConnector)

/-- The per-service part of `applyTomcatVAPT` (configMerger.mjs:644-672):
connector hardening plus, when `service.Engine?.Host` exists, valve hardening
of every host. -/
def hardenTomcatService (svc : TomcatService) : TomcatService :=
  { svc with
    connector := hardenTomcatConnectors svc.connector,
    engine :=
      match svc.engine with
      | none => none
      | some eng => some { eng with host := eng.host.mapAll hardenTomcatHost } }

/-- `applyTomcatVAPT` (configMerger.mjs:632-678): assign the server-level VAPT
attributes, then harden the first service (`Service[0]` when an array). -/
def applyTomcatVAPT (shutdownCmd : String) (config : TomcatConfig) : TomcatConfig :=
  match config.server with
  | none => config
  | some server =>
    let server := { server with attrs := objAssign server.attrs (tomcatVaptServer shutdownCmd) }
    { server := some { server with service := server.service.mapFirst hardenTomcatService } }

/-! ## Store model of the Tomcat connector merge (`src/configMerger.mjs`)

`mergeTomcatConfig` mutates shared JS objects: `extractTomcatUserSettings`
collects *references* to the old document's connector objects,
`applyTomcatUserSettings` pushes those references into the new document, and
`applyTomcatVAPT` then `Object.assign`s onto whatever the new document's
connector list references.  To reason about this aliasing, connector objects
live in an explicit heap and documents hold references (heap indices). -/

/-- Heap of connector objects; a reference is an index. -/
abbrev ConnHeap := List AttrMap

def heapGet (h : ConnHeap) (r : Nat) : AttrMap := h.getD r []

def heapSet (h : ConnHeap) (r : Nat) (m : AttrMap) : ConnHeap := h.set r m

/-- JS `a || b` over possibly-`undefined` strings (`undefined` and `''` are
falsy). -/
def jsOrStr : Option String → Option String → Option String
  | some s, b => if s = "" then b else some s
  | none, b => b

/-- Write `obj[k] = v?`; when the value is `undefined` the JS object keeps the
key with value `undefined`, which is indistinguishable from an absent key for
every later read, so the map is left unchanged. -/
def maybeSetKey (m : AttrMap) (k : String) : Option String → AttrMap
  | some v => setKey m k v
  | none => m

/-- The connector filter of `extractTomcatUserSettings`
(configMerger.mjs:524-536): a connector is a user customization when it is
SSL-enabled, has a non-default port, or declares a protocol. -/
def connectorIsUserCustom (conn : AttrMap) : Bool :=
  let isSSL := attrLookup conn "@_SSLEnabled" == some "true"
      || attrLookup conn "@_secure" == some "true"
  let isCustomPort :=
    match attrLookup conn "@_port" with
    | some p => p ≠ "" && !(["8080", "8009", "8005", "8443"].contains p)
    | none => false
  let hasProtocol :=
    match attrLookup conn "@_protocol" with
    | some p => p ≠ ""
    | none => false
  isSSL || isCustomPort || hasProtocol

/-- Connector part of `extractTomcatUserSettings` (configMerger.mjs:522-536):
references to the old document's customized connectors. -/
def extractTomcatConnectorRefs (h : ConnHeap) (oldConns : List Nat) : List Nat :=
  oldConns.filter (fun r => connectorIsUserCustom (heapGet h r))

/-- Connector part of `applyTomcatUserSettings` (configMerger.mjs:582-607):
for each user connector, a same-port connector in the new document is replaced
by a freshly allocated spread copy (`{ ...userConn, ... }`); otherwise the
*old document's object itself* is pushed (`service.Connector.push(userConn)`).
Returns the updated heap and the new document's connector reference list. -/
def applyTomcatUserConnectors (h : ConnHeap) (newConns userConns : List Nat) :
    ConnHeap × List Nat :=
  userConns.foldl
    (fun st u =>
      let userObj := heapGet st.1 u
      let port := attrLookup userObj "@_port"
      match st.2.findIdx? (fun c => attrLookup (heapGet st.1 c) "@_port" == port) with
      | some i =>
        let existing := heapGet st.1 (st.2.getD i 0)
        let merged :=
          maybeSetKey
            (maybeSetKey userObj "@_sslProtocol"
              (jsOrStr (attrLookup existing "@_sslProtocol") (attrLookup userObj "@_sslProtocol")))
            "@_ciphers"
            (jsOrStr (attrLookup existing "@_ciphers") (attrLookup userObj "@_ciphers"))
        (st.1 ++ [merged], st.2.set i st.1.length)
      | none => (st.1, st.2 ++ [u]))
    (h, newConns)

/-- Connector part of `applyTomcatVAPT` (configMerger.mjs:644-651) in the store
model: `Object.assign` onto every object referenced by the new document's
connector list — including objects shared with the old document. -/
def applyTomcatVAPTConnectors (h : ConnHeap) (conns : List Nat) : ConnHeap :=
  conns.foldl (fun h c => heapSet h c (objAssign (heapGet h c) tomcatVaptConnector)) h

/-- The connector pipeline of `mergeTomcatConfig` (configMerger.mjs:448-505):
extract the old document's custom connectors, apply them to the new document,
then apply the VAPT hardening.  Returns the final heap and the new document's
connector references. -/
def tomcatConnectorMergePipeline (h : ConnHeap) (oldConns newConns : List Nat) :
    ConnHeap × List Nat :=
  let userConns := extractTomcatConnectorRefs h oldConns
  let applied := applyTomcatUserConnectors h newConns userConns
  (applyTomcatVAPTConnectors applied.1 applied.2, applied.2)

/-! ## Diff reporter (`src/configMerger.mjs`) -/

/-- `'═'.repeat(100)` (configMerger.mjs:1060). -/
def diffBar : String := String.mk (List.replicate 100 '═')

/-- `'-'.repeat(100)` (configMerger.mjs:1068). -/
def diffDash : String := String.mk (List.replicate 100 '-')

/-- `oldLines[i] || ''` — an out-of-range read (`undefined`) and an empty line
both yield `''`. -/
def jsIndexOr (l : List String) (i : Nat) : String := l.getD i ""

/-- The change-classification loop of `generateDiffReport`
(configMerger.mjs:1081-1096): per line index, `added` (old empty, new not),
`removed` (old not empty, new empty), `modified` (both non-empty, different). -/
def diffAdded (oldLines newLines : List String) : List (Nat × String) :=
  (List.range (max oldLines.length newLines.length)).filterMap (fun i =>
    let o := jsIndexOr oldLines i
    let n := jsIndexOr newLines i
    if o ≠ n ∧ o = "" ∧ n ≠ "" then some (i + 1, n) else none)

def diffRemoved (oldLines newLines : List String) : List (Nat × String) :=
  (List.range (max oldLines.length newLines.length)).filterMap (fun i =>
    let o := jsIndexOr oldLines i
    let n := jsIndexOr newLines i
    if o ≠ n ∧ o ≠ "" ∧ n = "" then some (i + 1, o) else none)

def diffModified (oldLines newLines : List String) : List (Nat × String × String) :=
  (List.range (max oldLines.length newLines.length)).filterMap (fun i =>
    let o := jsIndexOr oldLines i
    let n := jsIndexOr newLines i
    if o ≠ n ∧ o ≠ "" ∧ n ≠ "" then some (i + 1, o, n) else none)

/-- Header of the report (configMerger.mjs:1060-1064); the `Generated:`
timestamp (`new Date().toISOString()`) is an external input `ts`. -/
def diffReportHeader (ts : String) : List String :=
  [diffBar,
   "                    CONFIGURATION DIFF REPORT",
   "                    Generated: " ++ ts,
   diffBar,
   ""]

/-- Everything after the header (configMerger.mjs:1066-1142): summary, the
three change sections (modified truncated at 50 entries), and statistics. -/
def diffReportBody (oldContent newContent : String) : List String :=
  let oldLines := jsSplitNl oldContent
  let newLines := jsSplitNl newContent
  let added := diffAdded oldLines newLines
  let removed := diffRemoved oldLines newLines
  let modified := diffModified oldLines newLines
  ["SUMMARY:",
   diffDash,
   "  Old Configuration Lines: " ++ toString oldLines.length,
   "  New Configuration Lines: " ++ toString newLines.length,
   "  Line Difference: " ++ toString ((newLines.length : Int) - (oldLines.length : Int)),
   ""]
  ++ (if added.length > 0 then
        ["ADDED LINES:", diffDash]
        ++ added.map (fun c => "  [Line " ++ toString c.1 ++ "] + " ++ c.2)
        ++ [""]
      else [])
  ++ (if removed.length > 0 then
        ["REMOVED LINES:", diffDash]
        ++ removed.map (fun c => "  [Line " ++ toString c.1 ++ "] - " ++ c.2)
        ++ [""]
      else [])
  ++ (if modified.length > 0 then
        ["MODIFIED LINES:", diffDash]
        ++ (modified.take 50).flatMap (fun c =>
             ["  [Line " ++ toString c.1 ++ "]",
              "    OLD: " ++ c.2.1,
              "    NEW: " ++ c.2.2,
              ""])
        ++ (if modified.length > 50 then
              ["  ... and " ++ toString (modified.length - 50) ++ " more modified lines", ""]
            else [])
      else [])
  ++ [diffBar,
      "CHANGE STATISTICS:",
      diffDash,
      "  Lines Added:    " ++ toString added.length,
      "  Lines Removed:  " ++ toString removed.length,
      "  Lines Modified: " ++ toString modified.length,
      "  Total Changes:  " ++ toString (added.length + removed.length + modified.length),
      diffBar]

/-- The `report` array of `generateDiffReport` (configMerger.mjs:1055-1146);
the file written is these lines joined with newlines. -/
def generateDiffReportLines (ts oldContent newContent : String) : List String :=
  diffReportHeader ts ++ diffReportBody oldContent newContent

/-- The report text written to the sidecar file (configMerger.mjs:1144). -/
def generateDiffReport (ts oldContent newContent : String) : String :=
  String.intercalate "\n" (generateDiffReportLines ts oldContent newContent)

/-! ## Upgrade orchestrator (`src/server.mjs`) -/

/-- Archive-format dispatch of `extractArchive` (server.mjs:317-351): `.zip`,
`.tar.gz`/`.tgz` and `.tar` are extracted, anything else throws. -/
def supportedArchiveName (name : String) : Bool :=
  jsEndsWith name ".zip" || (jsEndsWith name ".tar.gz" || jsEndsWith name ".tgz")
    || jsEndsWith name ".tar"

/-- The error message thrown by `extractArchive` for an unsupported extension
(server.mjs:351). -/
def unsupportedFormatMsg (name : String) : String :=
  "Unsupported archive format. Only .zip, .tar, .tar.gz, .tgz allowed. Got: " ++ name

/-- Phases of the `/api/upgrade` run (server.mjs:1133-1203), in program order. -/
inductive UpgradePhase : Type
  | accessCheck
  | backup
  | extract
  | preserve
  | replace
  | compressBackup
  | cleanup
deriving Repr, DecidableEq

/-- Observable outcome of one `/api/upgrade` run: which phases were entered,
whether the backup directory was created, whether any archive entries were
extracted, whether the target installation was written, and the
error/rollback/response state. -/
structure UpgradeOutcome where
  phases : List UpgradePhase
  backupCreated : Bool
  entriesExtracted : Bool
  targetReplaced : Bool
  rollbackPerformed : Bool
  success : Bool
  errorMsg : Option String
deriving Repr, DecidableEq

/-- The `/api/upgrade` handler's control flow (server.mjs:1133-1270) reduced to
its phase structure: PHASE 0 access check, PHASE 1 backup
(`backupWithStructure`), PHASE 2 extraction (`extractArchive`, which throws on
an unsupported extension *before* extracting any entry), then
preserve/replace/compress/cleanup; any failure after a successful backup runs
the rollback restore from the backup folder.  `laterOk` abstracts success of
the phases after extraction. -/
def runUpgradeModel (accessOk : Bool) (archiveName : String) (laterOk : Bool) : UpgradeOutcome :=
  if !accessOk then
    { phases := [.accessCheck], backupCreated := false, entriesExtracted := false,
      targetReplaced := false, rollbackPerformed := false, success := false,
      errorMsg := some "Cannot access target path" }
  else if !(supportedArchiveName archiveName) then
    { phases := [.accessCheck, .backup, .extract], backupCreated := true,
      entriesExtracted := false, targetReplaced := false, rollbackPerformed := true,
      success := false, errorMsg := some (unsupportedFormatMsg archiveName) }
  else if laterOk then
    { phases := [.accessCheck, .backup, .extract, .preserve, .replace, .compressBackup, .cleanup],
      backupCreated := true, entriesExtracted := true, targetReplaced := true,
      rollbackPerformed := false, success := true, errorMsg := none }
  else
    { phases := [.accessCheck, .backup, .extract, .preserve, .replace],
      backupCreated := true, entriesExtracted := true, targetReplaced := true,
      rollbackPerformed := true, success := false, errorMsg := some "upgrade step failed" }

/-! ## Smart-merge fallback (`src/configMerger.mjs`, `src/server.mjs`) -/

/-- The result object returned by `smartMergeConfiguration`
(configMerger.mjs:1200-1225), restricted to the fields every branch sets. -/
structure SmartMergeOutcome where
  merged : Bool
  fallback : Bool
  backupPath : Option String
  errorMsg : Option String
deriving Repr, DecidableEq

/-- A filesystem copy performed by the fallback. -/
structure FsCopy where
  src : String
  dst : String
deriving Repr, DecidableEq

/-- The try/catch skeleton of `smartMergeConfiguration`
(configMerger.mjs:1152-1231).  `mergeStep` abstracts the tool-specific merge
body (`.error e` = the body threw `e`); `fallbackCopiesSucceed` abstracts the
two `fs.copy` calls of the fallback.  On a merge failure with a working
fallback: copy the new file to the output, save the old file as
`<output>.old-backup`, and return `merged: false` — no exception propagates.
If the fallback also fails the original error is rethrown. -/
def smartMergeConfigurationModel (mergeStep : Except String SmartMergeOutcome)
    (fallbackCopiesSucceed : Bool) (oldConfigPath newConfigPath outputPath : String) :
    Except String (SmartMergeOutcome × List FsCopy) :=
  match mergeStep with
  | .ok r => .ok (r, [])
  | .error e =>
    if fallbackCopiesSucceed then
      .ok ({ merged := false, fallback := true,
             backupPath := some (outputPath ++ ".old-backup"), errorMsg := some e },
           [⟨newConfigPath, outputPath⟩, ⟨oldConfigPath, outputPath ++ ".old-backup"⟩])
    else .error e

/-- The merge branch of the preserve loop in `comprehensivePreserveHTTPD_SECURE`
(server.mjs:509-534, 564-577): a returned result — merged or fallback — lets
the loop continue; only a (re)thrown error on a `critical: true` item aborts
the run. -/
def preserveMergeItemAborts (critical : Bool)
    (result : Except String (SmartMergeOutcome × List FsCopy)) : Bool :=
  match result with
  | .ok _ => false
  | .error _ => critical

/-! ## Helper lemmas -/

/-- The spec's classification-disjointness invariant for httpd: the user
allow-list and the security deny-list share no key. -/
theorem apache_rule_tables_disjoint :
    ∀ s ∈ APACHE_USER_DIRECTIVES, s ∉ APACHE_SECURITY_DIRECTIVES := by
  decide

theorem mem_of_mem_upsertDirective {d u : ApacheDirective} {acc : List ApacheDirective}
    (h : d ∈ upsertDirective acc u) : d = u ∨ d ∈ acc := by
  induction acc with
  | nil => simpa [upsertDirective] using h
  | cons a as ih =>
    rw [upsertDirective] at h
    split at h
    · rcases List.mem_cons.mp h with h | h
      · exact Or.inl h
      · exact Or.inr (List.mem_cons_of_mem _ h)
    · rcases List.mem_cons.mp h with h | h
      · exact Or.inr (h ▸ List.mem_cons_self _ _)
      · rcases ih h with h | h
        · exact Or.inl h
        · exact Or.inr (List.mem_cons_of_mem _ h)

theorem self_mem_upsertDirective (u : ApacheDirective) (acc : List ApacheDirective) :
    u ∈ upsertDirective acc u := by
  induction acc with
  | nil => simp [upsertDirective]
  | cons a as ih =>
    rw [upsertDirective]
    split
    · exact List.mem_cons_self _ _
    · exact List.mem_cons_of_mem _ ih

theorem mem_upsertDirective_of_name_ne {d u : ApacheDirective} {acc : List ApacheDirective}
    (hd : d ∈ acc) (hne : u.name ≠ d.name) : d ∈ upsertDirective acc u := by
  induction acc with
  | nil => cases hd
  | cons a as ih =>
    rw [upsertDirective]
    rcases List.mem_cons.mp hd with hd | hd
    · subst hd
      split
      · next heq => exact absurd heq.symm hne
      · exact List.mem_cons_self _ _
    · split
      · exact List.mem_cons_of_mem _ hd
      · exact List.mem_cons_of_mem _ (ih hd)

/-- Any security-named directive in the merged directive list already occurs in
the base: the merge loop never inserts one (security-deny-listed user
directives are skipped, and all other inserted directives carry a
non-security name). -/
theorem mergeApacheDirectives_sec_from_base {userDirs : List ApacheDirective} :
    ∀ {base : List ApacheDirective} {d : ApacheDirective},
      d ∈ mergeApacheDirectives base userDirs →
      d.name ∈ APACHE_SECURITY_DIRECTIVES → d ∈ base := by
  induction userDirs with
  | nil => intro base d h _; simpa [mergeApacheDirectives] using h
  | cons u us ih =>
    intro base d h hsec
    rw [mergeApacheDirectives, List.foldl_cons] at h
    by_cases hu : u.name ∈ APACHE_SECURITY_DIRECTIVES
    · rw [if_pos hu] at h
      exact ih h hsec
    · rw [if_neg hu] at h
      rcases mem_of_mem_upsertDirective (ih h hsec) with rfl | hbase
      · exact absurd hsec hu
      · exact hbase

/-- A security-named directive of the base survives the merge loop: every
inserted directive has a non-security name, so it can never replace it. -/
theorem mergeApacheDirectives_sec_preserved {userDirs : List ApacheDirective} :
    ∀ {base : List ApacheDirective} {d : ApacheDirective},
      d ∈ base → d.name ∈ APACHE_SECURITY_DIRECTIVES →
      d ∈ mergeApacheDirectives base userDirs := by
  induction userDirs with
  | nil => intro base d h _; simpa [mergeApacheDirectives] using h
  | cons u us ih =>
    intro base d h hsec
    rw [mergeApacheDirectives, List.foldl_cons]
    by_cases hu : u.name ∈ APACHE_SECURITY_DIRECTIVES
    · rw [if_pos hu]
      exact ih h hsec
    · rw [if_neg hu]
      refine ih ?_ hsec
      exact mem_upsertDirective_of_name_ne h (fun heq => hu (heq ▸ hsec))

/-- Once a directive is in the accumulator and no remaining user directive
shares its name, the merge loop keeps it. -/
theorem mergeApacheDirectives_mem_stable {u : ApacheDirective} :
    ∀ {userDirs base : List ApacheDirective},
      u ∈ base → userDirs.countP (fun w => w.name == u.name) = 0 →
      u ∈ mergeApacheDirectives base userDirs := by
  intro userDirs
  induction userDirs with
  | nil => intro base h _; simpa [mergeApacheDirectives] using h
  | cons w ws ih =>
    intro base h hcount
    rw [List.countP_cons] at hcount
    have hw : (w.name == u.name) = false := by
      cases hv : (w.name == u.name)
      · rfl
      · rw [hv] at hcount; simp at hcount
    rw [hw] at hcount
    simp only [if_false, Bool.false_eq_true, Nat.add_zero] at hcount
    rw [mergeApacheDirectives, List.foldl_cons]
    by_cases hsec : w.name ∈ APACHE_SECURITY_DIRECTIVES
    · rw [if_pos hsec]
      exact ih h hcount
    · rw [if_neg hsec]
      exact ih (mem_upsertDirective_of_name_ne h (by simpa using hw)) hcount

/-- A user directive whose name occurs exactly once among the user directives
ends up in the merged directive list (replacing the base's first same-named
directive or appended). -/
theorem mergeApacheDirectives_user_mem {u : ApacheDirective} :
    ∀ {userDirs base : List ApacheDirective},
      u ∈ userDirs → userDirs.countP (fun w => w.name == u.name) = 1 →
      u.name ∉ APACHE_SECURITY_DIRECTIVES →
      u ∈ mergeApacheDirectives base userDirs := by
  intro userDirs
  induction userDirs with
  | nil => intro base h _ _; cases h
  | cons w ws ih =>
    intro base hmem hcount hsec
    rw [List.countP_cons] at hcount
    cases hw : (w.name == u.name) with
    | true =>
      rw [hw, if_pos rfl] at hcount
      have hws : ws.countP (fun w => w.name == u.name) = 0 := by omega
      have huw : u = w := by
        rcases List.mem_cons.mp hmem with h | h
        · exact h
        · exfalso
          have hpos : 0 < ws.countP (fun w => w.name == u.name) :=
            List.countP_pos_iff.mpr ⟨u, h, by simp⟩
          omega
      subst huw
      rw [mergeApacheDirectives, List.foldl_cons, if_neg hsec]
      exact mergeApacheDirectives_mem_stable (self_mem_upsertDirective _ _) hws
    | false =>
      have hmem' : u ∈ ws := by
        rcases List.mem_cons.mp hmem with h | h
        · subst h; simp at hw
        · exact h
      rw [hw] at hcount
      simp only [if_false, Bool.false_eq_true, Nat.add_zero] at hcount
      rw [mergeApacheDirectives, List.foldl_cons]
      by_cases hwsec : w.name ∈ APACHE_SECURITY_DIRECTIVES
      · rw [if_pos hwsec]
        exact ih hmem' hcount hsec
      · rw [if_neg hwsec]
        exact ih hmem' hcount hsec

theorem attrLookup_setKey_self (m : AttrMap) (k v : String) :
    attrLookup (setKey m k v) k = some v := by
  induction m with
  | nil => simp [setKey, attrLookup]
  | cons kv rest ih =>
    rw [setKey]
    split
    · simp [attrLookup]
    · next hne => rw [attrLookup, if_neg hne]; exact ih

theorem attrLookup_setKey_ne (m : AttrMap) {k k' : String} (v' : String) (hne : k' ≠ k) :
    attrLookup (setKey m k' v') k = attrLookup m k := by
  induction m with
  | nil => simp [setKey, attrLookup, hne]
  | cons kv rest ih =>
    rw [setKey]
    split
    · next heq => rw [attrLookup, if_neg hne, attrLookup, if_neg (heq ▸ hne)]
    · rw [attrLookup, attrLookup]
      split
      · rfl
      · exact ih

theorem setKey_of_attrLookup_eq {m : AttrMap} {k v : String}
    (h : attrLookup m k = some v) : setKey m k v = m := by
  induction m with
  | nil => simp [attrLookup] at h
  | cons kv rest ih =>
    rw [attrLookup] at h
    rw [setKey]
    split
    · next heq =>
      rw [if_pos heq] at h
      cases kv
      simp_all
    · next hne =>
      rw [if_neg hne] at h
      rw [ih h]

theorem attrLookup_objAssign_not_mem {src : AttrMap} :
    ∀ {m : AttrMap} {k : String}, k ∉ src.map Prod.fst →
      attrLookup (objAssign m src) k = attrLookup m k := by
  induction src with
  | nil => intro m k _; rfl
  | cons kv rest ih =>
    intro m k hk
    simp only [List.map_cons, List.mem_cons] at hk
    push_neg at hk
    rw [objAssign, List.foldl_cons]
    have h1 : attrLookup (objAssign (setKey m kv.1 kv.2) rest) k
        = attrLookup (setKey m kv.1 kv.2) k := ih hk.2
    rw [show (rest.foldl (fun m kv => setKey m kv.1 kv.2) (setKey m kv.1 kv.2))
          = objAssign (setKey m kv.1 kv.2) rest from rfl, h1]
    exact attrLookup_setKey_ne m kv.2 (fun h => hk.1 h.symm)

theorem attrLookup_objAssign_mem {src : AttrMap} :
    ∀ {m : AttrMap} {k v : String}, (src.map Prod.fst).Nodup → (k, v) ∈ src →
      attrLookup (objAssign m src) k = some v := by
  induction src with
  | nil => intro m k v _ h; cases h
  | cons kv rest ih =>
    intro m k v hnd hmem
    simp only [List.map_cons, List.nodup_cons] at hnd
    rw [objAssign, List.foldl_cons]
    rw [show (rest.foldl (fun m kv => setKey m kv.1 kv.2) (setKey m kv.1 kv.2))
          = objAssign (setKey m kv.1 kv.2) rest from rfl]
    rcases List.mem_cons.mp hmem with h | h
    · have hk : kv.1 = k := by rw [← h]
      have hv : kv.2 = v := by rw [← h]
      have hnot : k ∉ rest.map Prod.fst := hk ▸ hnd.1
      rw [attrLookup_objAssign_not_mem hnot, ← hk, ← hv]
      exact attrLookup_setKey_self m kv.1 kv.2
    · exact ih hnd.2 h

/-- `Object.assign` with the same source twice is the same as once, provided
the source has no duplicate keys. -/
theorem objAssign_self_idem {src : AttrMap} :
    ∀ {m : AttrMap}, (src.map Prod.fst).Nodup →
      objAssign (objAssign m src) src = objAssign m src := by
  induction src with
  | nil => intro m _; rfl
  | cons kv rest ih =>
    intro m hnd
    simp only [List.map_cons, List.nodup_cons] at hnd
    have hstep : ∀ (m' : AttrMap),
        objAssign m' (kv :: rest) = objAssign (setKey m' kv.1 kv.2) rest := fun _ => rfl
    rw [hstep, hstep]
    have hlook : attrLookup (objAssign (setKey m kv.1 kv.2) rest) kv.1 = some kv.2 := by
      rw [attrLookup_objAssign_not_mem hnd.1]
      exact attrLookup_setKey_self m kv.1 kv.2
    rw [setKey_of_attrLookup_eq hlook]
    exact ih hnd.2

set_option maxHeartbeats 1000000 in
theorem vaptConnector_keys_nodup : (tomcatVaptConnector.map Prod.fst).Nodup := by
  decide

theorem vaptServer_keys_nodup (cmd : String) :
    ((tomcatVaptServer cmd).map Prod.fst).Nodup := by
  simp [tomcatVaptServer]

theorem isErrorReportValve_vaptValve : isErrorReportValve tomcatVaptValve = true := by
  decide

/-- After one hardening pass the valve list always contains an
`ErrorReportValve` (either it already had one, or one was just pushed). -/
theorem newValves_any (vs : List AttrMap) :
    (if vs.any isErrorReportValve then vs else vs ++ [tomcatVaptValve]).any
      isErrorReportValve = true := by
  cases h : vs.any isErrorReportValve
  · simp [List.any_append, isErrorReportValve_vaptValve]
  · simpa using h

theorem valveList_arr (vs : List AttrMap) : valveList (JsArr.arr vs) = vs := rfl

theorem hardenTomcatHost_idem (host : TomcatHost) :
    hardenTomcatHost (hardenTomcatHost host) = hardenTomcatHost host := by
  unfold hardenTomcatHost
  dsimp only [valveList_arr]
  rw [if_pos (newValves_any (valveList host.valve))]

theorem hardenTomcatConnectors_idem (c : JsArr AttrMap) :
    hardenTomcatConnectors (hardenTomcatConnectors c) = hardenTomcatConnectors c := by
  cases c with
  | absent => rfl
  | one m =>
    simp only [hardenTomcatConnectors, JsArr.mapAll]
    rw [objAssign_self_idem vaptConnector_keys_nodup]
  | arr ms =>
    simp only [hardenTomcatConnectors, JsArr.mapAll, List.map_map, Function.comp_def]
    refine congrArg JsArr.arr ?_
    refine List.map_congr_left fun m _ => ?_
    exact objAssign_self_idem vaptConnector_keys_nodup

theorem mapAll_idem {α : Type} (f : α → α) (hf : ∀ a, f (f a) = f a) (j : JsArr α) :
    (j.mapAll f).mapAll f = j.mapAll f := by
  cases j with
  | absent => rfl
  | one a => simp [JsArr.mapAll, hf]
  | arr as =>
    simp only [JsArr.mapAll, List.map_map]
    congr 1
    apply List.map_congr_left
    intro a _
    exact hf a

theorem mapFirst_idem {α : Type} (f : α → α) (hf : ∀ a, f (f a) = f a) (j : JsArr α) :
    (j.mapFirst f).mapFirst f = j.mapFirst f := by
  cases j with
  | absent => rfl
  | one a => simp [JsArr.mapFirst, hf]
  | arr as =>
    cases as with
    | nil => rfl
    | cons a rest => simp [JsArr.mapFirst, hf]

theorem hardenTomcatService_idem (svc : TomcatService) :
    hardenTomcatService (hardenTomcatService svc) = hardenTomcatService svc := by
  cases svc with
  | mk attrs connector engine =>
    cases engine with
    | none =>
      simp only [hardenTomcatService]
      rw [hardenTomcatConnectors_idem]
    | some eng =>
      simp only [hardenTomcatService]
      rw [hardenTomcatConnectors_idem]
      cases eng with
      | mk eattrs host =>
        simp only [TomcatService.mk.injEq, Option.some.injEq, TomcatEngine.mk.injEq, true_and]
        exact mapAll_idem _ hardenTomcatHost_idem host

/-- Membership in one section of `buildApacheConfigLines`. -/
theorem mem_build_section {α : Type} (header : String) (f : α → String)
    (l : List α) (x : α) (hx : x ∈ l) :
    f x ∈ (if l.length > 0 then [header] ++ l.map f ++ [""] else []) := by
  rw [if_pos (List.length_pos_of_mem hx)]
  simp only [List.mem_append, List.mem_map]
  exact Or.inl (Or.inr ⟨x, hx, rfl⟩)

/-- Idempotence of the whole XML hardening pass. -/
theorem applyTomcatVAPT_idem (shutdownCmd : String) (config : TomcatConfig) :
    applyTomcatVAPT shutdownCmd (applyTomcatVAPT shutdownCmd config) =
      applyTomcatVAPT shutdownCmd config := by
  cases config with
  | mk server =>
    cases server with
    | none => rfl
    | some s =>
      cases s with
      | mk attrs service =>
        simp only [applyTomcatVAPT, TomcatConfig.mk.injEq, Option.some.injEq,
          TomcatServer.mk.injEq]
        exact ⟨objAssign_self_idem (vaptServer_keys_nodup shutdownCmd),
          mapFirst_idem _ hardenTomcatService_idem service⟩

/-! ## Claim theorems -/

/-- C1.  Security-wins invariant: the old document contributes no directive
whose name is on `APACHE_SECURITY_DIRECTIVES` — the extraction keeps only
user-allow-listed names (disjoint from the deny-list), every security-named
directive of the merged document already occurs in the new document, and every
security-named directive of the new document survives into the merged
document; so a deny-listed key always carries the new version's value, never
the old one. -/
theorem apache_security_wins (oldConfig newConfig : ApacheConfig) :
    (∀ d ∈ (extractApacheUserSettings oldConfig).directives,
        d.name ∉ APACHE_SECURITY_DIRECTIVES) ∧
    (∀ d ∈ (mergeApacheSettings newConfig (extractApacheUserSettings oldConfig)).directives,
        d.name ∈ APACHE_SECURITY_DIRECTIVES → d ∈ newConfig.directives) ∧
    (∀ d ∈ newConfig.directives,
        d.name ∈ APACHE_SECURITY_DIRECTIVES →
          d ∈ (mergeApacheSettings newConfig (extractApacheUserSettings oldConfig)).directives) := by
  refine ⟨?_, ?_, ?_⟩
  · intro d hd
    have h := List.mem_filter.mp hd
    exact apache_rule_tables_disjoint _ (by simpa using h.2)
  · intro d hd hsec
    exact mergeApacheDirectives_sec_from_base hd hsec
  · intro d hd hsec
    exact mergeApacheDirectives_sec_preserved hd hsec

/-- Witness for C1 at a concrete pair of configurations: the old config's
`ServerTokens Min` never reaches the merged document, whose `ServerTokens`
directive is the new document's. -/
theorem apache_security_wins_witness :
    (⟨"ServerTokens", "Full", "ServerTokens Full", 1⟩ : ApacheDirective) ∈
      (parseApacheConfig "ServerTokens Full").directives :=
  (apache_security_wins (parseApacheConfig "ServerTokens Min\nServerName a")
      (parseApacheConfig "ServerTokens Full")).2.1 _ (by decide) (by decide)

/-- C2.  User-preservation invariant: a user-allow-listed directive of the old
document (unique among the old document's top-level directives for its name)
is carried into the merged document — appended when the new document has no
directive of that name, replacing the new document's first same-named
directive otherwise; in both cases the merged document contains the old
directive with the old value. -/
theorem apache_user_preservation (oldConfig newConfig : ApacheConfig) (u : ApacheDirective)
    (hmem : u ∈ oldConfig.directives)
    (huser : u.name ∈ APACHE_USER_DIRECTIVES)
    (huniq : oldConfig.directives.countP (fun d => d.name == u.name) = 1) :
    u ∈ (mergeApacheSettings newConfig (extractApacheUserSettings oldConfig)).directives := by
  have hsec : u.name ∉ APACHE_SECURITY_DIRECTIVES := apache_rule_tables_disjoint _ huser
  have hEmem : u ∈ (extractApacheUserSettings oldConfig).directives :=
    List.mem_filter.mpr ⟨hmem, by simpa using huser⟩
  have hEcount :
      (extractApacheUserSettings oldConfig).directives.countP
        (fun d => d.name == u.name) = 1 := by
    simp only [extractApacheUserSettings]
    rw [List.countP_filter, ← huniq]
    apply List.countP_congr
    intro d _
    cases hdn : (d.name == u.name)
    · simp [hdn]
    · have : d.name = u.name := by simpa using hdn
      simp [hdn, this, huser]
  exact mergeApacheDirectives_user_mem hEmem hEcount hsec

/-- Witness for C2: `Listen 8080` from the old config replaces the new
config's `Listen 80` in the merged document. -/
theorem apache_user_preservation_witness :
    (⟨"Listen", "8080", "Listen 8080", 1⟩ : ApacheDirective) ∈
      (mergeApacheSettings (parseApacheConfig "Listen 80")
        (extractApacheUserSettings (parseApacheConfig "Listen 8080"))).directives :=
  apache_user_preservation _ _ _ (by decide) (by decide) (by decide)

/-- Counterexample to C3: the serializer is not line-equivalent to the parsed
input even with no merge or hardening applied — for the one-line accepted text
`"ServerName example"`, `serialize(parse(T))` gains banner, timestamp and
section-header lines, so its line list differs from `T`'s. -/
theorem apache_round_trip_failure :
    jsSplitNl (buildApacheConfig "2024-01-01T00:00:00.000Z"
        (parseApacheConfig "ServerName example")) ≠
      jsSplitNl "ServerName example" := by
  decide

/-- C3 (amended).  The parser/serializer pair is not a line-equivalent
round-trip: `buildApacheConfig` prepends a banner with a generation timestamp,
groups elements into fixed sections behind added comment headers, and drops
the input's comment and blank lines.  What does hold is that serialization
loses no parsed element: every directive's original line, every module line
and every block's verbatim content appears among the emitted lines. -/
theorem apache_serializer_retains_elements (ts : String) (config : ApacheConfig) :
    (∀ d ∈ config.directives, d.fullLine ∈ buildApacheConfigLines ts config) ∧
    (∀ m ∈ config.modules, m.line ∈ buildApacheConfigLines ts config) ∧
    (∀ b ∈ config.ifModules, b.content ∈ buildApacheConfigLines ts config) ∧
    (∀ b ∈ config.directories, b.content ∈ buildApacheConfigLines ts config) ∧
    (∀ b ∈ config.virtualHosts, b.content ∈ buildApacheConfigLines ts config) := by
  refine ⟨?_, ?_, ?_, ?_, ?_⟩
  · intro d hd
    have h := mem_build_section "# Server Configuration" (fun d => d.fullLine)
      config.directives d hd
    simp only [buildApacheConfigLines, List.mem_append]
    tauto
  · intro m hm
    have h := mem_build_section "# Load Modules" (fun m => m.line) config.modules m hm
    simp only [buildApacheConfigLines, List.mem_append]
    tauto
  · intro b hb
    have h := mem_build_section "# Conditional Configuration" (fun b => b.content)
      config.ifModules b hb
    simp only [buildApacheConfigLines, List.mem_append]
    tauto
  · intro b hb
    have h := mem_build_section "# Directory Configuration" (fun b => b.content)
      config.directories b hb
    simp only [buildApacheConfigLines, List.mem_append]
    tauto
  · intro b hb
    have h := mem_build_section "# Virtual Hosts" (fun b => b.content)
      config.virtualHosts b hb
    simp only [buildApacheConfigLines, List.mem_append]
    tauto

/-- Witness for the amended C3: the parsed directive line of
`"ServerName example"` appears among the serializer's output lines. -/
theorem apache_serializer_retains_elements_witness :
    "ServerName example" ∈
      buildApacheConfigLines "2024-01-01T00:00:00.000Z"
        (parseApacheConfig "ServerName example") :=
  (apache_serializer_retains_elements "2024-01-01T00:00:00.000Z"
      (parseApacheConfig "ServerName example")).1
    ⟨"ServerName", "example", "ServerName example", 1⟩ (by decide)

/-- Counterexample to C4: the directive-format hardening append is not
idempotent — applying it twice to a merged content leaves two copies of the
`Include conf/extra/httpd-security-vapt.conf` line, and the doubly-hardened
text differs from the once-hardened text. -/
theorem apache_hardening_not_idempotent :
    (jsSplitNl (injectApacheHardening (injectApacheHardening "ServerName a"))).count
        vaptIncludeLine = 2 ∧
    injectApacheHardening (injectApacheHardening "ServerName a") ≠
      injectApacheHardening "ServerName a" := by
  refine ⟨by decide, by decide⟩

/-- C4 (amended).  Hardening injection is idempotent only for the XML format:
`applyTomcatVAPT` applied twice equals one application (attribute overwrites
are stable and the `ErrorReportValve` push is guarded by a check).  The
directive-format injection appends the `Include` block unconditionally, so
each application adds exactly one more `Include` line — two applications
duplicate it. -/
theorem hardening_idempotence_amended :
    (∀ lines : List String,
        (injectApacheHardeningLines lines).count vaptIncludeLine =
          lines.count vaptIncludeLine + 1) ∧
    (∀ (shutdownCmd : String) (config : TomcatConfig),
        applyTomcatVAPT shutdownCmd (applyTomcatVAPT shutdownCmd config) =
          applyTomcatVAPT shutdownCmd config) := by
  constructor
  · intro lines
    have hone : (["", "# Include VAPT Security Hardening", vaptIncludeLine, ""]).count
        vaptIncludeLine = 1 := by decide
    rw [injectApacheHardeningLines, List.count_append, hone]
  · exact applyTomcatVAPT_idem

/-- C5.  Structural block preservation: the merged document's VirtualHost
blocks are exactly the new document's followed by all of the old document's
(so their count is the sum and no old block is dropped); in Scenario 2, one
old `<VirtualHost *:443>` block and a new config without VirtualHosts merge to
exactly that one block, verbatim. -/
theorem apache_structural_blocks_preserved :
    (∀ (newConfig oldConfig : ApacheConfig),
        (mergeApacheSettings newConfig (extractApacheUserSettings oldConfig)).virtualHosts =
          newConfig.virtualHosts ++ oldConfig.virtualHosts ∧
        (mergeApacheSettings newConfig
            (extractApacheUserSettings oldConfig)).virtualHosts.length =
          newConfig.virtualHosts.length + oldConfig.virtualHosts.length) ∧
    (mergeApacheSettings (parseApacheConfig "Listen 80")
        (extractApacheUserSettings (parseApacheConfig
          "<VirtualHost *:443>\n    ServerName secure.example.com\n    SSLEngine on\n</VirtualHost>"))).virtualHosts.map
        (fun b => b.content) =
      ["<VirtualHost *:443>\n    ServerName secure.example.com\n    SSLEngine on\n</VirtualHost>"] := by
  refine ⟨fun newConfig oldConfig => ⟨rfl, ?_⟩, by decide⟩
  simp [mergeApacheSettings, extractApacheUserSettings]

/-- C6.  Scenario 1: merging old `ServerName old.example.com` + `Listen 8080`
with new `ServerName default` + `Listen 80` + `ServerTokens Full` keeps the
old ServerName and Listen lines in the final content, and after resolving the
appended VAPT include, the effective (last-wins) `ServerTokens` value is
`Prod` — the hardening value beats the new version's own `Full`. -/
theorem scenario1_effective_merge :
    "ServerName old.example.com" ∈
      jsSplitNl (mergeApacheConfigContent "2024-01-01T00:00:00.000Z"
        "ServerName old.example.com\nListen 8080"
        "ServerName default\nListen 80\nServerTokens Full") ∧
    "Listen 8080" ∈
      jsSplitNl (mergeApacheConfigContent "2024-01-01T00:00:00.000Z"
        "ServerName old.example.com\nListen 8080"
        "ServerName default\nListen 80\nServerTokens Full") ∧
    effectiveDirectiveValue
        (resolveVaptInclude (jsSplitNl (mergeApacheConfigContent "2024-01-01T00:00:00.000Z"
          "ServerName old.example.com\nListen 8080"
          "ServerName default\nListen 80\nServerTokens Full")))
        "ServerTokens" = some "Prod" := by
  refine ⟨by decide, by decide, by decide⟩

/-- Counterexample to C7: the diff report embeds its generation timestamp
(`new Date().toISOString()`), so two invocations on the identical inputs at
different instants produce different bytes. -/
theorem diff_report_not_run_independent :
    generateDiffReportLines "2024-01-01T00:00:00.000Z" "a" "b" ≠
      generateDiffReportLines "2024-01-01T00:00:01.000Z" "a" "b" := by
  decide

/-- C7 (amended).  Apart from the `Generated:` timestamp line (line index 2),
the report is a pure function of the two input texts: reports produced at any
two instants agree on every other line. -/
theorem diff_report_pure_modulo_timestamp (ts1 ts2 oldContent newContent : String) :
    (generateDiffReportLines ts1 oldContent newContent).eraseIdx 2 =
      (generateDiffReportLines ts2 oldContent newContent).eraseIdx 2 := by
  simp [generateDiffReportLines, diffReportHeader, List.eraseIdx]

/-- Counterexample to C8: for an uploaded `.rar` archive the run does create
the backup directory (PHASE 1 precedes the extension check inside
`extractArchive`), the unsupported-format error is raised afterwards, and the
rollback restore is performed — contradicting "before the backup step", "no
backup directory is created" and "no rollback is needed". -/
theorem unsupported_archive_counterexample :
    (runUpgradeModel true "installer.rar" true).backupCreated = true ∧
    (runUpgradeModel true "installer.rar" true).errorMsg =
      some (unsupportedFormatMsg "installer.rar") ∧
    (runUpgradeModel true "installer.rar" true).rollbackPerformed = true ∧
    (runUpgradeModel true "installer.rar" true).phases =
      [.accessCheck, .backup, .extract] := by
  refine ⟨by decide, by decide, by decide, by decide⟩

/-- C8 (amended).  An archive name with an unsupported extension fails with
the unsupported-format error during the extraction phase, before any archive
entry is extracted and before the target installation is written — but after
the backup phase has created the backup directory, from which the rollback
restore then runs. -/
theorem unsupported_archive_fails_before_extraction (archiveName : String) (laterOk : Bool)
    (h : supportedArchiveName archiveName = false) :
    (runUpgradeModel true archiveName laterOk).errorMsg =
        some (unsupportedFormatMsg archiveName) ∧
    (runUpgradeModel true archiveName laterOk).entriesExtracted = false ∧
    (runUpgradeModel true archiveName laterOk).targetReplaced = false ∧
    (runUpgradeModel true archiveName laterOk).backupCreated = true ∧
    (runUpgradeModel true archiveName laterOk).rollbackPerformed = true ∧
    (runUpgradeModel true archiveName laterOk).phases =
      [.accessCheck, .backup, .extract] := by
  simp [runUpgradeModel, h]

/-- Witness for the amended C8 at the concrete archive name `app.rar`. -/
theorem unsupported_archive_fails_before_extraction_witness :
    (runUpgradeModel true "app.rar" false).errorMsg =
        some (unsupportedFormatMsg "app.rar") ∧
    (runUpgradeModel true "app.rar" false).entriesExtracted = false ∧
    (runUpgradeModel true "app.rar" false).targetReplaced = false ∧
    (runUpgradeModel true "app.rar" false).backupCreated = true ∧
    (runUpgradeModel true "app.rar" false).rollbackPerformed = true ∧
    (runUpgradeModel true "app.rar" false).phases =
      [.accessCheck, .backup, .extract] :=
  unsupported_archive_fails_before_extraction "app.rar" false (by decide)

/-- C9.  Merge-failure fallback is non-fatal: when the tool-specific merge
body throws and the fallback copies succeed, `smartMergeConfiguration` returns
normally with `merged: false`, `fallback: true`, the error message, and the
`<output>.old-backup` sidecar path, having copied the new file to the output
and the old file to the sidecar; the preserve loop treats this returned result
as non-aborting, so the surrounding run continues. -/
theorem merge_failure_fallback_nonfatal (e oldPath newPath outPath : String) (critical : Bool) :
    smartMergeConfigurationModel (.error e) true oldPath newPath outPath =
      .ok ({ merged := false, fallback := true,
             backupPath := some (outPath ++ ".old-backup"), errorMsg := some e },
           [⟨newPath, outPath⟩, ⟨oldPath, outPath ++ ".old-backup"⟩]) ∧
    preserveMergeItemAborts critical
      (smartMergeConfigurationModel (.error e) true oldPath newPath outPath) = false := by
  exact ⟨rfl, rfl⟩

/-- Counterexample to C10: the XML merge mutates its old input.  An old
document whose only connector is a custom SSL connector on port 9443 and a new
document without connectors: the connector object is pushed into the new
document by reference, the VAPT pass `Object.assign`s onto it, and the old
document's connector object is no longer what it was. -/
theorem tomcat_merge_mutates_inputs :
    heapGet (tomcatConnectorMergePipeline
        [[("@_port", "9443"), ("@_SSLEnabled", "true")]] [0] []).1 0 ≠
      [("@_port", "9443"), ("@_SSLEnabled", "true")] := by
  decide

/-- C10 (amended).  The directive-format merge starts from a deep clone and
leaves its inputs unchanged, but the XML-format merge does not: any old custom
connector whose port does not occur in the new document is carried into the
new document by reference and then hardened in place — after the merge the old
document's connector object equals the `Object.assign` of its former self with
the hardening attributes, so whenever it did not already carry
`maxThreads="150"` it has been mutated. -/
theorem tomcat_merge_mutates_old_connector (conn : AttrMap)
    (hcustom : connectorIsUserCustom conn = true)
    (hthreads : attrLookup conn "@_maxThreads" ≠ some "150") :
    heapGet (tomcatConnectorMergePipeline [conn] [0] []).1 0 =
        objAssign conn tomcatVaptConnector ∧
    heapGet (tomcatConnectorMergePipeline [conn] [0] []).1 0 ≠ conn := by
  have hfirst : heapGet (tomcatConnectorMergePipeline [conn] [0] []).1 0 =
      objAssign conn tomcatVaptConnector := by
    simp [tomcatConnectorMergePipeline, extractTomcatConnectorRefs,
      applyTomcatUserConnectors, applyTomcatVAPTConnectors, heapGet, heapSet,
      List.filter, hcustom]
  refine ⟨hfirst, ?_⟩
  rw [hfirst]
  intro heq
  exact hthreads (heq ▸ attrLookup_objAssign_mem vaptConnector_keys_nodup (by decide))

/-- Witness for the amended C10 at a concrete custom connector. -/
theorem tomcat_merge_mutates_old_connector_witness :
    heapGet (tomcatConnectorMergePipeline
        [[("@_port", "9443"), ("@_SSLEnabled", "true")]] [0] []).1 0 =
      objAssign [("@_port", "9443"), ("@_SSLEnabled", "true")] tomcatVaptConnector :=
  (tomcat_merge_mutates_old_connector _ (by decide) (by decide)).1

end ToolsUpgrade
